import Mathlib

/-
Verification development for the blog application in src/main.py.

The route handlers of src/main.py are embedded as pure Lean functions over an
explicit database state (users, posts, comments, plus the auto-increment
counters of the three primary-key columns).  The current session actor is
either anonymous or an authenticated user id.  Each handler returns its
observable outcome together with the database after the request:

  - register    (src/main.py lines 150-167)
  - login       (src/main.py lines 170-182)
  - show_post   (src/main.py lines 192-207), the comment-adding route
  - contact     (src/main.py lines 215-242)
  - add_new_post (src/main.py lines 245-263)
  - edit_post   (src/main.py lines 266-291)
  - delete_post (src/main.py lines 294-301)

Unhandled Python exceptions (AttributeError on None, SMTP exceptions,
IntegrityError from the unique title column) are modelled as dedicated
outcome constructors, kept distinct from the deliberate abort(403) denials.
-/

set_option autoImplicit false

namespace BlogMain

/-- Modelled from the spec: the werkzeug password hashing collaborator
(generate_password_hash / check_password_hash), which is external to src/.
Per the spec, the stored value is a salted one-way hash that encodes its own
algorithm and salt parameters, so verification is self-describing and
check(hash(p), q) holds exactly when q is the hashed password.  The digest is
represented by the password itself, which gives precisely that verification
behaviour without modelling the pbkdf2 bit stream. -/
structure PasswordHash where
  method : String
  salt : Nat
  digest : String
  deriving Repr, DecidableEq

/-- werkzeug generate_password_hash, as called at src/main.py line 157 with
method pbkdf2:sha256 and a freshly drawn salt (salt_length=16); the drawn salt
is passed explicitly to keep the model deterministic. -/
def generate_password_hash (password method : String) (salt : Nat) : PasswordHash :=
  ⟨method, salt, password⟩

/-- werkzeug check_password_hash, as called at src/main.py line 177. -/
def check_password_hash (h : PasswordHash) (password : String) : Bool :=
  h.digest == password

/-- users table, src/main.py lines 67-80. -/
structure User where
  id : Nat
  email : String
  password : PasswordHash
  name : String
  deriving Repr, DecidableEq

/-- blog_posts table, src/main.py lines 44-63.  The title column is declared
unique=True (line 48); that constraint is enforced in the commit steps below. -/
structure BlogPost where
  id : Nat
  title : String
  subtitle : String
  date : String
  body : String
  img_url : String
  author_id : Nat
  deriving Repr, DecidableEq

/-- comments table, src/main.py lines 84-99. -/
structure Comment where
  id : Nat
  text : String
  author_id : Nat
  post_id : Nat
  deriving Repr, DecidableEq

/-- The SQLAlchemy database state: the three tables plus the next value of
each auto-increment integer primary key. -/
structure DB where
  users : List User
  posts : List BlogPost
  comments : List Comment
  next_user_id : Nat
  next_post_id : Nat
  next_comment_id : Nat
  deriving Repr, DecidableEq

/-- The flask-login current_user of a request: anonymous or an authenticated
user id. -/
inductive Actor where
  | anonymous
  | user (id : Nat)
  deriving Repr, DecidableEq

/-- The data of a validated CreatePostForm (title, subtitle, body, img_url). -/
structure PostForm where
  title : String
  subtitle : String
  body : String
  img_url : String
  deriving Repr, DecidableEq

/-- Outcome of the register route, src/main.py lines 150-167. -/
inductive RegisterResult where
  /-- User created, logged in, redirect to the index page. -/
  | registered (u : User)
  /-- flash user already registered, redirect to the login page; nothing is
  persisted. -/
  | duplicateEmail
  deriving Repr, DecidableEq

/-- register route, src/main.py lines 150-167, on a validated form.
Mirrors: if no user row has the submitted email, create the user with a
hashed password, commit, log the new user in and redirect; otherwise flash
the duplicate message and redirect to login. -/
def register (db : DB) (e pw nm : String) (salt : Nat) (sess : Actor) :
    RegisterResult × DB × Actor :=
  if (db.users.find? (fun u => u.email == e)).isNone then
    let u : User :=
      ⟨db.next_user_id, e, generate_password_hash pw "pbkdf2:sha256" salt, nm⟩
    (.registered u,
     { db with users := db.users ++ [u], next_user_id := db.next_user_id + 1 },
     .user u.id)
  else
    (.duplicateEmail, db, sess)

/-- Outcome of the login route, src/main.py lines 170-182. -/
inductive LoginResult where
  /-- login_user, redirect to the index page. -/
  | success
  /-- flash email does not exist. -/
  | unknownEmail
  /-- flash password is not correct. -/
  | badCredential
  deriving Repr, DecidableEq

/-- login route, src/main.py lines 170-182, on a validated form. -/
def login (db : DB) (e pw : String) (sess : Actor) : LoginResult × Actor :=
  match db.users.find? (fun u => u.email == e) with
  | none => (.unknownEmail, sess)
  | some u =>
    if !check_password_hash u.password pw then (.badCredential, sess)
    else (.success, .user u.id)

/-- Outcome of the show_post route, src/main.py lines 192-207. -/
inductive ShowPostResult where
  /-- Unhandled Python AttributeError: the anonymous user object has no id
  attribute, raised at src/main.py line 201 when an anonymous visitor submits
  the comment form.  The request dies with HTTP 500, not with abort(403). -/
  | attributeError
  /-- Page rendered; newComment is the comment persisted by this request, if
  any. -/
  | rendered (newComment : Option Comment)
  deriving Repr, DecidableEq

/-- True exactly on the outcome that models an unhandled Python exception. -/
def ShowPostResult.isCrash : ShowPostResult → Bool
  | .attributeError => true
  | .rendered _ => false

/-- show_post route, src/main.py lines 192-207.  form is the comment text when
the CommentForm validates (a POST), none otherwise.  The route has no
login_required decorator and no membership check: a validated comment form
reads current_user.id (line 201), which raises AttributeError for the
anonymous user; for an authenticated user the comment row is inserted and
committed with author_id and post_id taken verbatim from the request (the
store does not enforce the post foreign key, so no existence check happens). -/
def show_post (db : DB) (actor : Actor) (post_id : Nat) (form : Option String) :
    ShowPostResult × DB :=
  match form with
  | none => (.rendered none, db)
  | some text =>
    match actor with
    | .anonymous => (.attributeError, db)
    | .user uid =>
      let c : Comment := ⟨db.next_comment_id, text, uid, post_id⟩
      (.rendered (some c),
       { db with comments := db.comments ++ [c],
                 next_comment_id := db.next_comment_id + 1 })

/-- One sendmail call handed to the SMTP relay. -/
structure Mail where
  from_addr : String
  to_addrs : List String
  msg : String
  deriving Repr, DecidableEq

/-- Behaviour of the external SMTP relay during one request. -/
inductive RelayOutcome where
  | ok
  /-- connection.login raises SMTPAuthenticationError. -/
  | authFailure
  /-- establishing the connection (or starttls) raises. -/
  | connectionFailure
  deriving Repr, DecidableEq

/-- Outcome of the contact route, src/main.py lines 215-242. -/
inductive ContactResult where
  /-- contact.html rendered with the submitted data, the completeness flag and
  the list of empty field names. -/
  | rendered (is_completed : Bool) (error_field : List String)
  /-- Unhandled exception escaping the smtplib block (no try/except exists in
  the route): the request dies with HTTP 500. -/
  | smtpException
  /-- Unhandled KeyError from indexing the form data inside the sendmail call. -/
  | keyError
  deriving Repr, DecidableEq

/-- True exactly on the outcomes that model an unhandled Python exception. -/
def ContactResult.isCrash : ContactResult → Bool
  | .rendered _ _ => false
  | .smtpException => true
  | .keyError => true

/-- The error_field list built by the loop at src/main.py lines 223-226: the
keys of the submitted fields whose value is empty, in submission order. -/
def missingFields (data : List (String × String)) : List String :=
  (data.filter (fun kv => kv.2 == "")).map Prod.fst

/-- Dictionary indexing on the submitted form data; none models a KeyError. -/
def lookupField (data : List (String × String)) (k : String) : Option String :=
  (data.find? (fun kv => kv.1 == k)).map Prod.snd

/-- Body of the message composed at src/main.py lines 238-241 (f-string over
the name, email, phone_number and message fields). -/
def contactMsg (nm em ph ms : String) : String :=
  "Subject:Your message sent from jason-blog-flask website as below is received!\n\n"
    ++ "Name: " ++ nm ++ " \nemail: " ++ em ++ "\nPhone: " ++ ph
    ++ " \nMessage:" ++ ms

/-- contact route, src/main.py lines 215-242.  data is the submitted form as
key-value pairs; relay is the behaviour of the external SMTP collaborator.
Returns the outcome and the list of sendmail calls completed.  When every
field is non-empty the route opens the SMTP connection, authenticates and
sends; any relay failure escapes unhandled (there is no try/except).  When a
field is empty, no smtplib code runs at all and the page is re-rendered with
the data and the error_field list. -/
def contact (data : List (String × String)) (my_email : String)
    (relay : RelayOutcome) : ContactResult × List Mail :=
  let error_field := missingFields data
  let is_completed := error_field.isEmpty
  if is_completed then
    match relay with
    | .connectionFailure => (.smtpException, [])
    | .authFailure => (.smtpException, [])
    | .ok =>
      match lookupField data "email", lookupField data "name",
            lookupField data "phone_number", lookupField data "message" with
      | some em, some nm, some ph, some ms =>
        (.rendered true [], [⟨my_email, [em, my_email], contactMsg nm em ph ms⟩])
      | _, _, _, _ => (.keyError, [])
  else
    (.rendered false error_field, [])

/-- Outcome of the add_new_post route, src/main.py lines 245-263. -/
inductive NewPostResult where
  /-- login_required rejected the anonymous visitor (no login_view is
  configured, so flask-login answers HTTP 401). -/
  | unauthorized
  /-- abort(403) from the admin_only decorator, src/main.py line 122. -/
  | forbidden
  /-- GET or invalid form: the make-post page is rendered. -/
  | renderForm
  /-- db.session.commit raised IntegrityError because the title column is
  unique (src/main.py line 48); the transaction is rolled back, so no row is
  added. -/
  | duplicateTitle
  /-- Post committed, redirect to the index page. -/
  | redirectHome (p : BlogPost)
  deriving Repr, DecidableEq

/-- add_new_post route, src/main.py lines 245-263, decorated with
login_required then admin_only.  today is the formatted creation date string
stamped at line 258. -/
def add_new_post (db : DB) (actor : Actor) (form : Option PostForm)
    (today : String) : NewPostResult × DB :=
  match actor with
  | .anonymous => (.unauthorized, db)
  | .user uid =>
    if uid != 1 then (.forbidden, db)
    else
      match form with
      | none => (.renderForm, db)
      | some f =>
        let p : BlogPost :=
          ⟨db.next_post_id, f.title, f.subtitle, today, f.body, f.img_url, uid⟩
        if db.posts.any (fun q => q.title == f.title) then (.duplicateTitle, db)
        else (.redirectHome p,
              { db with posts := db.posts ++ [p],
                        next_post_id := db.next_post_id + 1 })

/-- Outcome of the edit_post route, src/main.py lines 266-291. -/
inductive EditResult where
  /-- login_required rejected the anonymous visitor. -/
  | unauthorized
  /-- Unhandled Python AttributeError: BlogPost.query.get returned None and an
  attribute of None was read, at src/main.py line 272 for a non-admin and at
  line 275 for the admin.  The request dies with HTTP 500. -/
  | attributeError
  /-- abort(403), src/main.py line 273. -/
  | forbidden
  /-- GET or invalid form: the make-post page is rendered with the post data. -/
  | renderForm
  /-- db.session.commit raised IntegrityError: the new title collides with a
  different post under the unique title column. -/
  | duplicateTitle
  /-- Edit committed, redirect to show_post for the edited post. -/
  | redirectShow (post_id : Nat)
  deriving Repr, DecidableEq

/-- True exactly on the outcome that models an unhandled Python exception. -/
def EditResult.isCrash : EditResult → Bool
  | .attributeError => true
  | _ => false

/-- The authorization decision of src/main.py line 272: editing is allowed for
the authenticated user uid on post p unless uid differs from 1 and from the
author id of p. -/
def canEditPost (uid : Nat) (p : BlogPost) : Bool :=
  !(uid != 1 && uid != p.author_id)

/-- The in-place mutation of src/main.py lines 282-287: title, subtitle,
img_url and body are overwritten from the form; id, author_id and date are
not touched (the author_id assignment at line 286 is commented out). -/
def applyEdit (q : BlogPost) (f : PostForm) : BlogPost :=
  { q with title := f.title, subtitle := f.subtitle,
           img_url := f.img_url, body := f.body }

/-- True when some other stored post (different id) already carries title t,
so that committing the edit violates the unique title column. -/
def titleConflict (db : DB) (pid : Nat) (t : String) : Bool :=
  db.posts.any (fun q => q.id != pid && q.title == t)

/-- edit_post route, src/main.py lines 266-291, decorated with login_required
only.  form is the validated CreatePostForm data on POST, none on GET.  When
the post id is absent, every authenticated actor crashes with AttributeError:
a non-admin at the authorization test (line 272, post.author_id on None) and
the admin at form construction (line 275, post.title on None). -/
def edit_post (db : DB) (actor : Actor) (post_id : Nat)
    (form : Option PostForm) : EditResult × DB :=
  match actor with
  | .anonymous => (.unauthorized, db)
  | .user uid =>
    match db.posts.find? (fun q => q.id == post_id) with
    | none => (.attributeError, db)
    | some p =>
      if uid != 1 && uid != p.author_id then (.forbidden, db)
      else
        match form with
        | none => (.renderForm, db)
        | some f =>
          if titleConflict db p.id f.title then (.duplicateTitle, db)
          else
            (.redirectShow p.id,
             { db with posts :=
                 db.posts.map (fun q => if q.id == p.id then applyEdit q f else q) })

/-- Outcome of the delete_post route, src/main.py lines 294-301. -/
inductive DeleteResult where
  /-- login_required rejected the anonymous visitor. -/
  | unauthorized
  /-- abort(403) from the admin_only decorator, src/main.py line 122. -/
  | forbidden
  /-- Unhandled UnmappedInstanceError: db.session.delete was handed the None
  returned by BlogPost.query.get for an absent id. -/
  | unmappedInstanceError
  /-- Post deleted, redirect to the index page. -/
  | redirectHome
  deriving Repr, DecidableEq

/-- delete_post route, src/main.py lines 294-301, decorated with
login_required then admin_only.  Comments are not cascaded (no cascade is
configured and the store does not enforce the foreign key). -/
def delete_post (db : DB) (actor : Actor) (post_id : Nat) : DeleteResult × DB :=
  match actor with
  | .anonymous => (.unauthorized, db)
  | .user uid =>
    if uid != 1 then (.forbidden, db)
    else
      match db.posts.find? (fun p => p.id == post_id) with
      | none => (.unmappedInstanceError, db)
      | some _ =>
        (.redirectHome, { db with posts := db.posts.filter (fun q => q.id != post_id) })

/-! Concrete sample data used by witnesses and counterexamples. -/

/-- A sample stored hash (password secret, salt 7). -/
def hash0 : PasswordHash := generate_password_hash "secret" "pbkdf2:sha256" 7

/-- The first-created user, id 1: the admin by the convention of src/main.py
line 121. -/
def admin0 : User := ⟨1, "admin@example.com", hash0, "Admin"⟩

/-- An ordinary user with id 2. -/
def user2 : User := ⟨2, "u2@example.com", hash0, "U2"⟩

/-- A post with id 1 authored by user2. -/
def post1 : BlogPost :=
  ⟨1, "First post", "a subtitle", "January 01, 2021", "the body", "img.png", 2⟩

/-- A sample database: two users, one post, no comments. -/
def db0 : DB := ⟨[admin0, user2], [post1], [], 3, 2, 1⟩

/-- A sample validated edit form. -/
def editForm0 : PostForm := ⟨"New title", "new subtitle", "new body", "new.png"⟩

/-- post1 after applying editForm0. -/
def post1Edited : BlogPost := applyEdit post1 editForm0

/-- db0 after the successful edit of post 1 with editForm0. -/
def db0Edited : DB := { db0 with posts := [post1Edited] }

/-- A fully filled contact form submission (field names as expected by the
send path of src/main.py lines 237-241). -/
def fullContactData : List (String × String) :=
  [("name", "A"), ("email", "a@example.com"), ("phone_number", "1"),
   ("message", "hi")]

/-- The user row inserted by a fresh registration (src/main.py lines 155-159):
the next auto-increment id, the submitted email and name, and the salted hash
of the submitted password. -/
def newUser (db : DB) (e pw nm : String) (salt : Nat) : User :=
  ⟨db.next_user_id, e, generate_password_hash pw "pbkdf2:sha256" salt, nm⟩

/-- The database after a fresh registration commits. -/
def dbAfterRegister (db : DB) (e pw nm : String) (salt : Nat) : DB :=
  { db with users := db.users ++ [newUser db e pw nm salt],
            next_user_id := db.next_user_id + 1 }

/-! Claim theorems. -/

/-- C1: for every stored post and every authenticated actor, the edit-post
authorization decision of src/main.py line 272 is true exactly when the actor
id is 1 (the admin) or equals the author id of the post; the route answers
403 Forbidden exactly to the authenticated actors for which the decision is
false, and never answers 403 to an actor for which it is true. -/
theorem C1_edit_post_authorization (db : DB) (uid pid : Nat) (p : BlogPost)
    (form : Option PostForm)
    (hp : db.posts.find? (fun q => q.id == pid) = some p) :
    canEditPost uid p = (uid == 1 || uid == p.author_id) ∧
    (canEditPost uid p = false →
      edit_post db (.user uid) pid form = (.forbidden, db)) ∧
    (canEditPost uid p = true →
      (edit_post db (.user uid) pid form).1 ≠ .forbidden) := by
  refine ⟨?_, ?_, ?_⟩
  · cases h1 : (uid == 1) <;> cases h2 : (uid == p.author_id) <;>
      simp [canEditPost, bne, h1, h2]
  · intro hno
    have hcond : (uid != 1 && uid != p.author_id) = true := by
      have := congrArg Bool.not hno
      simpa [canEditPost] using this
    simp [edit_post, hp, hcond]
  · intro hyes
    have hcond : (uid != 1 && uid != p.author_id) = false := by
      have := congrArg Bool.not hyes
      simpa [canEditPost] using this
    cases form with
    | none => simp [edit_post, hp, hcond]
    | some f =>
      by_cases hc : titleConflict db p.id f.title <;>
        simp [edit_post, hp, hcond, hc]

/-- C1 witness: instantiated on db0, post 1 (author id 2) and actor id 2. -/
theorem C1_edit_post_authorization_witness :
    canEditPost 2 post1 = (2 == 1 || 2 == post1.author_id) ∧
    (canEditPost 2 post1 = false →
      edit_post db0 (.user 2) 1 none = (.forbidden, db0)) ∧
    (canEditPost 2 post1 = true →
      (edit_post db0 (.user 2) 1 none).1 ≠ .forbidden) :=
  C1_edit_post_authorization db0 2 1 post1 none (by decide)

/-- C2 counterexample: on db0, whose post 1 exists, an anonymous comment
submission makes the show_post route crash with an unhandled AttributeError
(current_user.id on the anonymous user, src/main.py line 201); the outcome is
a crash and is not a Forbidden denial, so the claim as stated is false. -/
theorem C2_counterexample :
    show_post db0 .anonymous 1 (some "hi") = (.attributeError, db0) ∧
    ShowPostResult.isCrash .attributeError = true := by
  decide

/-- C2 amended: a comment submission by an anonymous actor crashes with an
unhandled AttributeError (not a Forbidden denial) and persists nothing, while
a comment submission by any authenticated actor on an existing post succeeds
and the persisted Comment carries exactly the given post id and the actor
id. -/
theorem C2_addComment (db : DB) (pid uid : Nat) (text : String) (p : BlogPost)
    (hp : db.posts.find? (fun q => q.id == pid) = some p) :
    show_post db .anonymous pid (some text) = (.attributeError, db) ∧
    show_post db (.user uid) pid (some text) =
      (.rendered (some ⟨db.next_comment_id, text, uid, pid⟩),
       { db with comments := db.comments ++ [⟨db.next_comment_id, text, uid, pid⟩],
                 next_comment_id := db.next_comment_id + 1 }) ∧
    (⟨db.next_comment_id, text, uid, pid⟩ : Comment).post_id = pid ∧
    (⟨db.next_comment_id, text, uid, pid⟩ : Comment).author_id = uid := by
  refine ⟨rfl, rfl, rfl, rfl⟩

/-- C2 witness: instantiated on db0, post 1 and actor id 2. -/
theorem C2_addComment_witness :
    show_post db0 .anonymous 1 (some "hello") = (.attributeError, db0) ∧
    show_post db0 (.user 2) 1 (some "hello") =
      (.rendered (some ⟨db0.next_comment_id, "hello", 2, 1⟩),
       { db0 with
           comments := db0.comments ++ [⟨db0.next_comment_id, "hello", 2, 1⟩],
           next_comment_id := db0.next_comment_id + 1 }) ∧
    (⟨db0.next_comment_id, "hello", 2, 1⟩ : Comment).post_id = 1 ∧
    (⟨db0.next_comment_id, "hello", 2, 1⟩ : Comment).author_id = 2 :=
  C2_addComment db0 1 2 "hello" post1 (by decide)

/-- C3: a registration with an already registered email fails with the
duplicate flash and changes nothing; a registration with a fresh email
commits exactly one new user row, whose stored password is the salted hash of
the submitted password, logs that user in, and every later registration with
the same email fails with the duplicate flash and changes nothing. -/
theorem C3_register_unique_email (db : DB) (e pw nm : String) (salt : Nat)
    (sess : Actor) :
    ((db.users.find? (fun u => u.email == e)).isNone = false →
      register db e pw nm salt sess = (.duplicateEmail, db, sess)) ∧
    ((db.users.find? (fun u => u.email == e)).isNone = true →
      register db e pw nm salt sess =
        (.registered (newUser db e pw nm salt), dbAfterRegister db e pw nm salt,
         .user (newUser db e pw nm salt).id) ∧
      (newUser db e pw nm salt).email = e ∧
      (newUser db e pw nm salt).password =
        generate_password_hash pw "pbkdf2:sha256" salt ∧
      (dbAfterRegister db e pw nm salt).users = db.users ++ [newUser db e pw nm salt] ∧
      ∀ pw2 nm2 salt2 sess2,
        register (dbAfterRegister db e pw nm salt) e pw2 nm2 salt2 sess2 =
          (.duplicateEmail, dbAfterRegister db e pw nm salt, sess2)) := by
  constructor
  · intro hdup
    simp [register, hdup]
  · intro hfresh
    refine ⟨by simp [register, hfresh, newUser, dbAfterRegister], rfl, rfl, rfl, ?_⟩
    intro pw2 nm2 salt2 sess2
    have h0 : db.users.find? (fun u => u.email == e) = none := by
      cases h : db.users.find? (fun u => u.email == e) with
      | none => rfl
      | some u => rw [h] at hfresh; simp at hfresh
    have hfind :
        ((dbAfterRegister db e pw nm salt).users.find?
          (fun u => u.email == e)).isNone = false := by
      simp [dbAfterRegister, newUser, List.find?_append, h0]
    simp [register, hfind]

/-- C3 witness: a fresh registration on db0 followed by a second registration
with the same email. -/
theorem C3_register_unique_email_witness :
    register db0 "new@example.com" "pw" "N" 5 .anonymous =
      (.registered (newUser db0 "new@example.com" "pw" "N" 5),
       dbAfterRegister db0 "new@example.com" "pw" "N" 5,
       .user (newUser db0 "new@example.com" "pw" "N" 5).id) ∧
    register (dbAfterRegister db0 "new@example.com" "pw" "N" 5)
        "new@example.com" "other" "M" 6 .anonymous =
      (.duplicateEmail, dbAfterRegister db0 "new@example.com" "pw" "N" 5,
       .anonymous) := by
  have h :=
    (C3_register_unique_email db0 "new@example.com" "pw" "N" 5 .anonymous).2
      (by decide)
  exact ⟨h.1, h.2.2.2.2 "other" "M" 6 .anonymous⟩

/-- C4: login succeeds exactly when a user row carries the submitted email and
the stored hash verifies the submitted password; an unknown email answers the
email flash, a known email with a failing hash check answers the password
flash, the two outcomes are distinct constructors, and verification of a
stored hash against the password it hashed always succeeds. -/
theorem C4_authenticate (db : DB) (e pw : String) (sess : Actor) :
    (db.users.find? (fun u => u.email == e) = none →
      login db e pw sess = (.unknownEmail, sess)) ∧
    (∀ u, db.users.find? (fun v => v.email == e) = some u →
      (check_password_hash u.password pw = false →
        login db e pw sess = (.badCredential, sess)) ∧
      (check_password_hash u.password pw = true →
        login db e pw sess = (.success, .user u.id))) ∧
    LoginResult.unknownEmail ≠ LoginResult.badCredential ∧
    (∀ p m s, check_password_hash (generate_password_hash p m s) p = true) := by
  refine ⟨?_, ?_, by decide, ?_⟩
  · intro h
    simp [login, h]
  · intro u hu
    constructor
    · intro hc
      simp [login, hu, hc]
    · intro hc
      simp [login, hu, hc]
  · intro p m s
    simp [check_password_hash, generate_password_hash]

/-- C4 witness: on db0, the stored credentials of user2 log in, an unknown
email answers the email flash, and a wrong password answers the password
flash. -/
theorem C4_authenticate_witness :
    login db0 "u2@example.com" "secret" .anonymous = (.success, .user 2) ∧
    login db0 "nobody@example.com" "secret" .anonymous =
      (.unknownEmail, .anonymous) ∧
    login db0 "u2@example.com" "wrong" .anonymous =
      (.badCredential, .anonymous) := by
  have h1 := C4_authenticate db0 "u2@example.com" "secret" Actor.anonymous
  have h2 := C4_authenticate db0 "nobody@example.com" "secret" Actor.anonymous
  have h3 := C4_authenticate db0 "u2@example.com" "wrong" Actor.anonymous
  exact ⟨(h1.2.1 user2 (by decide)).2 (by decide), h2.1 (by decide),
         (h3.2.1 user2 (by decide)).1 (by decide)⟩

/-- C5: a post creation by the admin whose title equals the title of some
stored post always fails on the unique title column and leaves the database,
in particular the post count, unchanged. -/
theorem C5_duplicate_title (db : DB) (f : PostForm) (today : String)
    (hdup : db.posts.any (fun q => q.title == f.title) = true) :
    add_new_post db (.user 1) (some f) today = (.duplicateTitle, db) ∧
    (add_new_post db (.user 1) (some f) today).2.posts.length =
      db.posts.length := by
  have h : add_new_post db (.user 1) (some f) today = (.duplicateTitle, db) := by
    simp [add_new_post, hdup]
  exact ⟨h, by rw [h]⟩

/-- C5 witness: the admin re-submits the title of post1 on db0. -/
theorem C5_duplicate_title_witness :
    add_new_post db0 (.user 1) (some ⟨"First post", "s", "b", "i"⟩) "May 01, 2022" =
      (.duplicateTitle, db0) ∧
    (add_new_post db0 (.user 1) (some ⟨"First post", "s", "b", "i"⟩)
        "May 01, 2022").2.posts.length = db0.posts.length :=
  C5_duplicate_title db0 ⟨"First post", "s", "b", "i"⟩ "May 01, 2022" (by decide)

/-- C6: a delete request by any authenticated actor whose id differs from 1 is
answered 403 by the admin_only decorator before the handler body runs, and
the database, in particular every stored post and the post count, is
unchanged. -/
theorem C6_delete_forbidden (db : DB) (uid pid : Nat) (h : uid ≠ 1) :
    delete_post db (.user uid) pid = (.forbidden, db) ∧
    (delete_post db (.user uid) pid).2 = db ∧
    (delete_post db (.user uid) pid).2.posts.length = db.posts.length := by
  have hb : (uid != 1) = true := by simpa [bne] using h
  have hres : delete_post db (.user uid) pid = (.forbidden, db) := by
    simp [delete_post, hb]
  exact ⟨hres, by rw [hres], by rw [hres]⟩

/-- C6 witness: user 2 attempts to delete post 1 on db0. -/
theorem C6_delete_forbidden_witness :
    delete_post db0 (.user 2) 1 = (.forbidden, db0) ∧
    (delete_post db0 (.user 2) 1).2 = db0 ∧
    (delete_post db0 (.user 2) 1).2.posts.length = db0.posts.length :=
  C6_delete_forbidden db0 2 1 (by decide)

/-- C7 counterexample: on db0 no post has id 99, and the edit route crashes
with an unhandled AttributeError for the non-admin user 2 as well as for the
admin; the outcome is a crash, not a NotFound answer, so the claim as stated
is false. -/
theorem C7_counterexample :
    edit_post db0 (.user 2) 99 none = (.attributeError, db0) ∧
    edit_post db0 (.user 1) 99 none = (.attributeError, db0) ∧
    EditResult.isCrash .attributeError = true := by
  decide

/-- C7 amended: for every authenticated actor and every id with no stored
post, the edit route crashes with an unhandled AttributeError raised while
reading an attribute of None — there is no NotFound check; the database is
unchanged. -/
theorem C7_edit_missing_post (db : DB) (uid pid : Nat) (form : Option PostForm)
    (h : db.posts.find? (fun q => q.id == pid) = none) :
    edit_post db (.user uid) pid form = (.attributeError, db) := by
  simp [edit_post, h]

/-- C7 witness: user 2 requests the edit page of the absent post 99 on db0. -/
theorem C7_edit_missing_post_witness :
    edit_post db0 (.user 2) 99 none = (.attributeError, db0) :=
  C7_edit_missing_post db0 2 99 none (by decide)

/-- C8: whenever the edit route commits (answers the redirect to show_post),
the edited post keeps its id, author id and date and takes exactly the title,
subtitle, image URL and body of the form, every stored post with a different
id is unchanged, and the user and comment tables are untouched. -/
theorem C8_edit_frame (db : DB) (uid pid : Nat) (f : PostForm) (r : Nat)
    (db2 : DB)
    (h : edit_post db (.user uid) pid (some f) = (.redirectShow r, db2)) :
    ∃ p, db.posts.find? (fun q => q.id == pid) = some p ∧
      r = p.id ∧
      db2.users = db.users ∧
      db2.comments = db.comments ∧
      db2.posts = db.posts.map (fun q => if q.id == p.id then applyEdit q f else q) ∧
      (∀ q, q ∈ db.posts → q.id ≠ p.id → q ∈ db2.posts) ∧
      (applyEdit p f).id = p.id ∧
      (applyEdit p f).author_id = p.author_id ∧
      (applyEdit p f).date = p.date ∧
      (applyEdit p f).title = f.title ∧
      (applyEdit p f).subtitle = f.subtitle ∧
      (applyEdit p f).img_url = f.img_url ∧
      (applyEdit p f).body = f.body := by
  cases hp : db.posts.find? (fun q => q.id == pid) with
  | none => simp [edit_post, hp] at h
  | some p =>
    refine ⟨p, rfl, ?_⟩
    by_cases hauth : (uid != 1 && uid != p.author_id) = true
    · simp [edit_post, hp, hauth] at h
    · have hauth2 : (uid != 1 && uid != p.author_id) = false := by
        simpa using hauth
      by_cases hc : titleConflict db p.id f.title
      · simp [edit_post, hp, hauth2, hc] at h
      · have hval : edit_post db (.user uid) pid (some f) =
            (.redirectShow p.id,
             { db with posts :=
                 db.posts.map (fun q => if q.id == p.id then applyEdit q f else q) }) := by
          simp [edit_post, hp, hauth2, hc]
        rw [hval] at h
        injection h with h1 h2
        injection h1 with h1
        subst h2
        refine ⟨h1.symm, rfl, rfl, rfl, ?_, rfl, rfl, rfl, rfl, rfl, rfl, rfl⟩
        intro q hq hne
        have hqid : (q.id == p.id) = false := beq_eq_false_iff_ne.mpr hne
        have hfix : (fun x : BlogPost =>
            if x.id == p.id then applyEdit x f else x) q = q := by
          simp [hqid]
        exact hfix ▸ List.mem_map_of_mem _ hq

/-- C8 witness: user 2 (the author) edits post 1 on db0 with editForm0. -/
theorem C8_edit_frame_witness :
    ∃ p, db0.posts.find? (fun q => q.id == 1) = some p ∧
      1 = p.id ∧
      db0Edited.users = db0.users ∧
      db0Edited.comments = db0.comments ∧
      db0Edited.posts =
        db0.posts.map (fun q => if q.id == p.id then applyEdit q editForm0 else q) ∧
      (∀ q, q ∈ db0.posts → q.id ≠ p.id → q ∈ db0Edited.posts) ∧
      (applyEdit p editForm0).id = p.id ∧
      (applyEdit p editForm0).author_id = p.author_id ∧
      (applyEdit p editForm0).date = p.date ∧
      (applyEdit p editForm0).title = editForm0.title ∧
      (applyEdit p editForm0).subtitle = editForm0.subtitle ∧
      (applyEdit p editForm0).img_url = editForm0.img_url ∧
      (applyEdit p editForm0).body = editForm0.body :=
  C8_edit_frame db0 2 1 editForm0 1 db0Edited (by decide)

/-- C9: whenever some submitted contact field is empty, the route performs no
relay call and re-renders the page with exactly the names of the empty
fields; in particular the submission with name A, empty email, phone 1 and
message hi yields the missing-field list consisting of email alone and no
relay call, whatever the relay would have done. -/
theorem C9_contact_validation (data : List (String × String))
    (my_email : String) (relay : RelayOutcome)
    (h : (missingFields data).isEmpty = false) :
    contact data my_email relay = (.rendered false (missingFields data), []) ∧
    missingFields [("name", "A"), ("email", ""), ("phone", "1"), ("message", "hi")]
      = ["email"] ∧
    contact [("name", "A"), ("email", ""), ("phone", "1"), ("message", "hi")]
        my_email relay
      = (.rendered false ["email"], []) := by
  refine ⟨?_, by decide, rfl⟩
  simp [contact, h]

/-- C9 witness: the submission of the claim, with a concrete sender address
and a relay that would have succeeded. -/
theorem C9_contact_validation_witness :
    contact [("name", "A"), ("email", ""), ("phone", "1"), ("message", "hi")]
        "me@example.com" .ok
      = (.rendered false
          (missingFields
            [("name", "A"), ("email", ""), ("phone", "1"), ("message", "hi")]),
         []) ∧
    missingFields [("name", "A"), ("email", ""), ("phone", "1"), ("message", "hi")]
      = ["email"] ∧
    contact [("name", "A"), ("email", ""), ("phone", "1"), ("message", "hi")]
        "me@example.com" .ok
      = (.rendered false ["email"], []) :=
  C9_contact_validation
    [("name", "A"), ("email", ""), ("phone", "1"), ("message", "hi")]
    "me@example.com" .ok (by decide)

/-- C10 counterexample: on a fully filled submission, an authentication
failure (and likewise a connection failure) of the relay makes the contact
route die with an unhandled SMTP exception — a crash, not a recoverable
DeliveryFailed answer with the form re-rendered — so the claim as stated is
false. -/
theorem C10_counterexample :
    contact fullContactData "me@example.com" .authFailure = (.smtpException, []) ∧
    contact fullContactData "me@example.com" .connectionFailure =
      (.smtpException, []) ∧
    ContactResult.isCrash .smtpException = true := by
  decide

/-- C10 amended: for every fully filled contact submission, a failure of the
external mail relay (authentication or connection) escapes as an unhandled
SMTP exception, so the request crashes with no completed relay call; the
route never produces a recoverable DeliveryFailed outcome or a re-rendered
page. -/
theorem C10_relay_failure_crashes (data : List (String × String))
    (my_email : String) (relay : RelayOutcome)
    (hc : (missingFields data).isEmpty = true)
    (hr : relay ≠ RelayOutcome.ok) :
    contact data my_email relay = (.smtpException, []) ∧
    ContactResult.isCrash (contact data my_email relay).1 = true := by
  cases relay with
  | ok => exact absurd rfl hr
  | authFailure =>
    have hres : contact data my_email .authFailure = (.smtpException, []) := by
      simp [contact, hc]
    exact ⟨hres, by rw [hres]; rfl⟩
  | connectionFailure =>
    have hres : contact data my_email .connectionFailure = (.smtpException, []) := by
      simp [contact, hc]
    exact ⟨hres, by rw [hres]; rfl⟩

/-- C10 witness: the fully filled submission with an authenticating relay
failure. -/
theorem C10_relay_failure_crashes_witness :
    contact fullContactData "me@example.com" .authFailure = (.smtpException, []) ∧
    ContactResult.isCrash
      (contact fullContactData "me@example.com" .authFailure).1 = true :=
  C10_relay_failure_crashes fullContactData "me@example.com" .authFailure
    (by decide) (by decide)

end BlogMain
